import Mathlib

/-!
Verification development for the vanity-address-generator repository.

Strings from the Python sources are modelled as lists of ASCII byte values
(`List Nat`), which matches the inputs the programs actually handle
(hexadecimal address strings and hexadecimal patterns).  The cryptographic
primitives the sources import from external libraries (`eth_utils.keccak`,
`eth_utils.to_checksum_address`, `rlp.encode`) are embedded executably,
following the standard algorithms those libraries implement (Keccak-256,
EIP-55, RLP); the Keccak embedding is validated below against the standard
Keccak-256 test vector for the empty message.
-/

/-- Python `str.lower` restricted to ASCII, on a single byte value. -/
def lowerB (n : Nat) : Nat := if 65 ≤ n ∧ n ≤ 90 then n + 32 else n

/-- Python `str.upper` restricted to ASCII, on a single byte value. -/
def upperB (n : Nat) : Nat := if 97 ≤ n ∧ n ≤ 122 then n - 32 else n

/-- Python `str.islower` for a single ASCII byte value. -/
def pyIsLower (n : Nat) : Bool := decide (97 ≤ n ∧ n ≤ 122)

/-- Python `str.isupper` for a single ASCII byte value. -/
def pyIsUpper (n : Nat) : Bool := decide (65 ≤ n ∧ n ≤ 90)

/-- Python `str.isdigit` for a single ASCII byte value. -/
def pyIsDigit (n : Nat) : Bool := decide (48 ≤ n ∧ n ≤ 57)

/-- ASCII byte values of a Lean string literal (used to transcribe the
Python string constants appearing in the sources and the claims). -/
def asciiBytes (s : String) : List Nat := s.data.map Char.toNat

/-- Value of an ASCII hex digit (`0-9`, `a-f`, `A-F`); other bytes map to 0
(the Python sources only ever pass valid hex strings here). -/
def hexVal (n : Nat) : Nat :=
  if 48 ≤ n ∧ n ≤ 57 then n - 48
  else if 97 ≤ n ∧ n ≤ 102 then n - 87
  else if 65 ≤ n ∧ n ≤ 70 then n - 55
  else 0

/-- Parse a hex string (list of ASCII digits) into bytes, two digits per
byte, as `eth_utils.to_bytes(hexstr=...)` does after stripping `0x`. -/
def hexPairs : List Nat → List Nat
  | a :: b :: rest => (16 * hexVal a + hexVal b) :: hexPairs rest
  | _ => []

/-- Uncurried pairing step used to relate `hexPairs` to digit values. -/
def pairUp : List Nat → List Nat
  | a :: b :: rest => (16 * a + b) :: pairUp rest
  | _ => []

/-- Lowercase ASCII hex digit for a nibble value, as Python `bytes.hex`. -/
def hexDigitChar (n : Nat) : Nat := if n < 10 then 48 + n else 87 + n

/-- Render bytes as a lowercase hex string, as Python `bytes.hex()`. -/
def bytesToHex (bs : List Nat) : List Nat :=
  (bs.map fun b => [hexDigitChar (b / 16), hexDigitChar (b % 16)]).flatten

/-- Strip a leading `0x` (or `0X`) from a hex string, as
`eth_utils.remove_0x_prefix`. -/
def strip0x (s : List Nat) : List Nat :=
  match s with
  | 48 :: 120 :: rest => rest
  | 48 :: 88 :: rest => rest
  | _ => s

/-- All-ones 64-bit mask. -/
def mask64 : Nat := 2 ^ 64 - 1

/-- Rotate a 64-bit word left by `n` bits. -/
def rotl64 (x n : Nat) : Nat := ((x <<< n) ||| (x >>> (64 - n))) &&& mask64

/-- Bit `t` of the Keccak round-constant LFSR: the low bit of the state of
the degree-8 linear feedback register `x^8 + x^6 + x^5 + x^4 + 1` after
`t` steps from state 1, per the Keccak reference. -/
def keccakRCBit (t : Nat) : Nat :=
  ((List.range t).foldl (fun r _ => ((r <<< 1) ^^^ ((r >>> 7) * 0x71)) &&& 0xff) 1) &&& 1

/-- Keccak-f[1600] round constants, generated from the LFSR: round `i` has
bit `2^j - 1` set to the LFSR bit `7 i + j`, for `j < 7`. -/
def keccakRC : List Nat :=
  (List.range 24).map fun i =>
    (List.range 7).foldl (fun acc j => acc ||| (keccakRCBit (7 * i + j) <<< (2 ^ j - 1))) 0

/-- Keccak ρ rotation offsets for lane `x + 5*y`, generated from the
reference trajectory: starting at lane `(1, 0)`, step `t` assigns the
triangular number `(t+1)(t+2)/2 mod 64` and moves to `(y, 2x + 3y)`;
lane `(0, 0)` keeps offset 0. -/
def keccakRot : List Nat :=
  ((List.range 24).foldl
    (fun (acc : List Nat × Nat × Nat) t =>
      let x := acc.2.1
      let y := acc.2.2
      (acc.1.set (x + 5 * y) ((t + 1) * (t + 2) / 2 % 64), y, (2 * x + 3 * y) % 5))
    (List.replicate 25 0, 1, 0)).1

/-- Lane `i` of a Keccak state packed into a single natural number
(25 lanes of 64 bits, lane 0 in the lowest bits).  Packing the whole state
into one number keeps every intermediate state a small literal under
kernel evaluation. -/
def stLane (st : Nat) (i : Nat) : Nat := (st >>> (64 * i)) &&& mask64

/-- Keccak θ step on a packed state. -/
def keccakTheta (st : Nat) : Nat :=
  let c := fun x => stLane st x ^^^ stLane st (x + 5) ^^^ stLane st (x + 10) ^^^
    stLane st (x + 15) ^^^ stLane st (x + 20)
  let d := fun x => c ((x + 4) % 5) ^^^ rotl64 (c ((x + 1) % 5)) 1
  (List.range 25).foldl (fun acc i => acc ||| ((stLane st i ^^^ d (i % 5)) <<< (64 * i))) 0

/-- Keccak ρ and π steps combined on a packed state: lane `(x, y)` is
rotated and moved to position `(y, 2x + 3y)`. -/
def keccakRhoPi (st : Nat) : Nat :=
  (List.range 25).foldl
    (fun acc s =>
      let x := s % 5
      let y := s / 5
      acc ||| (rotl64 (stLane st s) (keccakRot.getD s 0) <<< (64 * (y + 5 * ((2 * x + 3 * y) % 5)))))
    0

/-- Keccak χ step on a packed state. -/
def keccakChi (st : Nat) : Nat :=
  (List.range 25).foldl
    (fun acc i =>
      let r := 5 * (i / 5)
      let x := i % 5
      acc |||
        ((stLane st i ^^^ ((stLane st (r + (x + 1) % 5) ^^^ mask64) &&& stLane st (r + (x + 2) % 5)))
          <<< (64 * i)))
    0

/-- One Keccak round: θ, ρ, π, χ, then ι with round constant `rc`
(the constant only touches lane 0, so the ι step is a single xor). -/
def keccakRound (st : Nat) (rc : Nat) : Nat := keccakChi (keccakRhoPi (keccakTheta st)) ^^^ rc

/-- Run the rounds for the given list of round constants.  The `if` has
identical branches: its only purpose is to force the intermediate state to
a numeral before the next round is entered, which keeps kernel reduction
shallow (one round at a time) instead of nesting all 24 rounds. -/
def keccakRounds : List Nat → Nat → Nat
  | [], st => st
  | rc :: rest, st =>
      let st1 := keccakRound st rc
      if st1 % 2 = 0 then keccakRounds rest st1 else keccakRounds rest st1

/-- The Keccak-f[1600] permutation (24 rounds) on a packed state. -/
def keccakF (st : Nat) : Nat := keccakRounds keccakRC st

/-- Interpret up to 8 bytes, little-endian, as a 64-bit lane. -/
def laneOfBytes (bs : List Nat) : Nat := bs.foldr (fun b acc => acc * 256 + b) 0

/-- The 8 little-endian bytes of a 64-bit lane. -/
def bytesOfLane (w : Nat) : List Nat := (List.range 8).map fun i => (w >>> (8 * i)) &&& 255

/-- Absorb one 136-byte block into the packed state and permute. -/
def absorbBlock (st : Nat) (block : List Nat) : Nat :=
  keccakF (st ^^^
    (List.range 17).foldl
      (fun acc i => acc ||| (laneOfBytes ((block.drop (8 * i)).take 8) <<< (64 * i))) 0)

/-- Legacy Keccak multi-rate padding (domain byte `0x01`), rate 136. -/
def keccakPad (msg : List Nat) : List Nat :=
  let padLen := 136 - msg.length % 136
  if padLen = 1 then msg ++ [0x81]
  else msg ++ 0x01 :: (List.replicate (padLen - 2) 0 ++ [0x80])

/-- Keccak-256 of a byte string (the legacy Keccak used by Ethereum, as
implemented by `eth_utils.keccak`): 32-byte digest. -/
def keccak256 (msg : List Nat) : List Nat :=
  let padded := keccakPad msg
  let blocks := (List.range (padded.length / 136)).map fun i => (padded.drop (136 * i)).take 136
  let final := blocks.foldl absorbBlock 0
  ((List.range 4).map fun i => bytesOfLane (stLane final i)).flatten

/-- The nibble sequence of a byte string, high nibble first. -/
def hashNibbles (bs : List Nat) : List Nat :=
  (bs.map fun b => [b / 16, b % 16]).flatten

/-- Embedding of `eth_utils.to_checksum_address`: lower-case the 40 hex
digits, hash their ASCII rendering with Keccak-256, upper-case every digit
whose corresponding hash nibble exceeds 7, and prepend `0x`. -/
def to_checksum_address (s : List Nat) : List Nat :=
  let norm := (strip0x s).map lowerB
  let nib := hashNibbles (keccak256 norm)
  [48, 120] ++ ((norm.zip nib).map fun p => if 7 < p.2 then upperB p.1 else p.1)

/-- Fuelled helper for `beBytes`: the fuel only bounds the recursion depth
(any fuel at least the encoded number gives the same answer), keeping the
definition structurally recursive and hence kernel-computable. -/
def beBytesAux : Nat → Nat → List Nat
  | 0, _ => []
  | _ + 1, 0 => []
  | fuel + 1, n + 1 => beBytesAux fuel ((n + 1) / 256) ++ [(n + 1) % 256]

/-- Minimal big-endian byte representation of a natural number (empty for
zero), as used by `rlp` for integer payloads. -/
def beBytes (n : Nat) : List Nat := beBytesAux n n

/-- Big-endian value of a byte string (used to state that `beBytes` is a
faithful encoding). -/
def fromBE (bs : List Nat) : Nat := bs.foldl (fun a b => a * 256 + b) 0

/-- RLP encoding of a byte string, per the RLP specification implemented by
the `rlp` package. -/
def rlp_encode_bytes (bs : List Nat) : List Nat :=
  if bs.length = 1 ∧ bs.getD 0 0 < 128 then bs
  else if bs.length < 56 then (128 + bs.length) :: bs
  else (183 + (beBytes bs.length).length) :: (beBytes bs.length ++ bs)

/-- RLP encoding of a non-negative integer: minimal big-endian bytes,
then byte-string encoding (so `0` encodes as the empty byte string `0x80`). -/
def rlp_encode_nat (n : Nat) : List Nat := rlp_encode_bytes (beBytes n)

/-- RLP list framing around an already-encoded payload. -/
def rlp_encode_list (payload : List Nat) : List Nat :=
  if payload.length < 56 then (192 + payload.length) :: payload
  else (247 + (beBytes payload.length).length) :: (beBytes payload.length ++ payload)

namespace CalculateContractAddress

/-- Embedding of `calculate_contract_address` from
`calculate_contract_address.py`: checksum the EOA address, RLP-encode
`[address_bytes, nonce]`, Keccak-256 the encoding, keep the last 20 bytes,
and return the result as a checksummed `0x` hex string. -/
def calculate_contract_address (eoa_address : List Nat) (nonce : Nat) : List Nat :=
  let eoa := to_checksum_address eoa_address
  let rlp_encoded := rlp_encode_list (rlp_encode_bytes (hexPairs (strip0x eoa)) ++ rlp_encode_nat nonce)
  let hash_result := keccak256 rlp_encoded
  to_checksum_address ([48, 120] ++ bytesToHex (hash_result.drop 12))

end CalculateContractAddress

namespace GenerateVanityContractDeployer

/-- Embedding of `calculate_contract_address` from
`generate_vanity_contract_deployer.py`: same CREATE derivation, but the
result is returned as the bare lowercase 40-digit hex string (no `0x`,
no checksum casing). -/
def calculate_contract_address (eoa_address : List Nat) (nonce : Nat) : List Nat :=
  bytesToHex ((keccak256 (rlp_encode_list
    (rlp_encode_bytes (hexPairs (strip0x eoa_address)) ++ rlp_encode_nat nonce))).drop 12)

/-- Embedding of `check_vanity_pattern` from
`generate_vanity_contract_deployer.py`.  When `match_case` is set the
address is replaced by its checksummed (`0x`-prefixed) rendering before the
ordinal comparisons; otherwise address and pattern are lower-cased. -/
def check_vanity_pattern (address pre suf : List Nat) (match_case : Bool) : Bool :=
  if match_case then
    let a := to_checksum_address address
    pre.isPrefixOf a && suf.isSuffixOf a
  else
    let a := address.map lowerB
    (pre.map lowerB).isPrefixOf a && (suf.map lowerB).isSuffixOf a

end GenerateVanityContractDeployer

/-- A vanity pattern as configured in `generate_vanity_eoa.py`:
prefix text, suffix text, case-sensitivity flag. -/
def VanityPattern : Type := List Nat × List Nat × Bool

/-- Two's-complement wrap-around of a ctypes `c_int` assignment: reduce an
integer into `[-2^31, 2^31)`.  ctypes does no overflow checking, so storing
an out-of-range value into the 32-bit counter wraps silently.  The numerals
are `2^31` and `2^32`, spelled out so integer automation can use them. -/
def wrapInt32 (n : Int) : Int := (n + 2147483648) % 4294967296 - 2147483648

/-- External BIP39/BIP44/secp256k1 primitives used by the sources through
`bip_utils` and `eth_account`.  The spec contracts these out ("specified
only as contracted external functions"), so the embedding abstracts over
them; every claim about the derivation pipeline is proved for all
instantiations. -/
structure Bip44Prims (Mnemonic Seed Ctx PrivKey Addr : Type) where
  seedGenerate : Mnemonic → Seed
  fromSeed : Seed → Ctx
  purposeStep : Ctx → Ctx
  coinStep : Ctx → Ctx
  accountStep : Ctx → Nat → Ctx
  changeStep : Ctx → Nat → Ctx
  addressIndexStep : Ctx → Nat → Ctx
  privateKeyHex : Ctx → PrivKey
  fromKeyAddress : PrivKey → Addr

/-- Numeric code of `Bip44Changes.CHAIN_EXT`. -/
def chainExt : Nat := 0

/-- The `GeneratedAddresses` namedtuple of `generate_vanity_eoa.py`. -/
structure GeneratedAddresses (PrivKey Addr : Type) where
  pk : PrivKey
  address : Addr
  index : Nat

namespace CalculateEOA

/-- Embedding of `generate_eoa_address` from `calculate_EOA.py`: seed from
the mnemonic, BIP44 master context, path `m/44'/60'/0'/0/i`, private key,
then the Ethereum address of that key. -/
def generate_eoa_address {M S C K A : Type} (P : Bip44Prims M S C K A)
    (mnemonic : M) (derivation_number : Nat) : A :=
  let seed_bytes := P.seedGenerate mnemonic
  let mst := P.fromSeed seed_bytes
  let ctx := P.addressIndexStep
    (P.changeStep (P.accountStep (P.coinStep (P.purposeStep mst)) 0) chainExt)
    derivation_number
  P.fromKeyAddress (P.privateKeyHex ctx)

end CalculateEOA

namespace GenerateVanityEoa

/-- Embedding of `generate_eth_addresses_from_mnemonic` from
`generate_vanity_eoa.py`: compute seed and master context once, then derive
each address index in turn, recording private key, address and index. -/
def generate_eth_addresses_from_mnemonic {M S C K A : Type}
    (P : Bip44Prims M S C K A) (mnemonic : M) (account : Nat) (change : Nat)
    (addresses_to_check : Nat) : List (GeneratedAddresses K A) :=
  let seed_bytes := P.seedGenerate mnemonic
  let mst := P.fromSeed seed_bytes
  (List.range addresses_to_check).map fun address_index =>
    let ctx := P.addressIndexStep
      (P.changeStep (P.accountStep (P.coinStep (P.purposeStep mst)) account) change)
      address_index
    let priv_key := P.privateKeyHex ctx
    { pk := priv_key, address := P.fromKeyAddress priv_key, index := address_index }

/-- Embedding of `check_vanity_pattern` from `generate_vanity_eoa.py`:
when `match_case` is false, address and pattern are lower-cased; otherwise
the raw strings are compared ordinally. -/
def check_vanity_pattern (address pre suf : List Nat) (match_case : Bool) : Bool :=
  if match_case then
    pre.isPrefixOf address && suf.isSuffixOf address
  else
    (pre.map lowerB).isPrefixOf (address.map lowerB) &&
      (suf.map lowerB).isSuffixOf (address.map lowerB)

/-- Embedding of `calculate_probability` from `generate_vanity_eoa.py`,
over exact rationals: per pattern, `(1/36)^lowercase * (1/36)^uppercase *
(1/16)^digits` when case-sensitive and `(1/16)^length` otherwise, summed
over the pattern list. -/
def calculate_probability (patterns : List VanityPattern) : ℚ :=
  patterns.foldl
    (fun total_prob p =>
      let pre := p.1
      let suf := p.2.1
      let match_case := p.2.2
      let prob :=
        if match_case then
          let cs := pre ++ suf
          ((1 : ℚ) / 36) ^ (cs.countP pyIsLower) * ((1 : ℚ) / 36) ^ (cs.countP pyIsUpper) *
            ((1 : ℚ) / 16) ^ (cs.countP pyIsDigit)
        else
          ((1 : ℚ) / 16) ^ (pre.length + suf.length)
      total_prob + prob)
    0

end GenerateVanityEoa

namespace GenerateVanityContractDeployer

/-- Embedding of `calculate_probability` from
`generate_vanity_contract_deployer.py` (single pattern). -/
def calculate_probability (pre suf : List Nat) (match_case : Bool) : ℚ :=
  if match_case then
    let cs := pre ++ suf
    ((1 : ℚ) / 36) ^ (cs.countP pyIsLower) * ((1 : ℚ) / 36) ^ (cs.countP pyIsUpper) *
      ((1 : ℚ) / 16) ^ (cs.countP pyIsDigit)
  else
    ((1 : ℚ) / 16) ^ (pre.length + suf.length)

end GenerateVanityContractDeployer

/-- The spec's per-character probability model for case-sensitive patterns:
1/36 for a lowercase letter, 1/36 for an uppercase letter, 1/16 for a
digit (other characters cannot appear in a valid hex pattern and are given
the neutral factor 1). -/
def specCharProbability (c : Nat) : ℚ :=
  if pyIsLower c then 1 / 36
  else if pyIsUpper c then 1 / 36
  else if pyIsDigit c then 1 / 16
  else 1

/-- The spec's per-pattern probability model: the product of the
per-character probabilities over all prefix and suffix characters when
case-sensitive, `(1/16)^(len prefix + len suffix)` otherwise. -/
def specPatternProbability (p : VanityPattern) : ℚ :=
  if p.2.2 then ((p.1 ++ p.2.1).map specCharProbability).prod
  else ((1 : ℚ) / 16) ^ (p.1.length + p.2.1.length)

/-- Arithmetic exceptions Python can raise in the progress loop. -/
inductive PyArithError
  | zeroDivision
  | mathDomain
deriving DecidableEq

/-- Model of `estimate_eta_50_percent` over exact arithmetic, recording
only whether the computation raises: `math.log(1 - p)` raises a math
domain error when `1 - p ≤ 0`; the division by `math.log(1 - p)` raises
`ZeroDivisionError` when `p = 0` (log 1 = 0); the final division raises
`ZeroDivisionError` when `guesses_per_second = 0`.  The numeric value of
the estimate involves real logarithms and is irrelevant to the safety
claim, so a successful run returns `()`. -/
def estimate_eta_50_percent (probability guesses_per_second : ℚ) : Except PyArithError Unit :=
  if 1 - probability ≤ 0 then .error .mathDomain
  else if probability = 0 then .error .zeroDivision
  else if guesses_per_second = 0 then .error .zeroDivision
  else .ok ()

/-- One observable state of the `log_progress` loop of
`generate_vanity_eoa.py`, just before the interval test. -/
structure LogTickState where
  current_time : ℚ
  last_log_time : ℚ
  start_time : ℚ
  total_guesses : Int
  pending_stats : List Int

/-- One reporting step of `log_progress` (lines 111-124 of
`generate_vanity_eoa.py`): when more than 5 seconds have passed since the
last report, drain the stats queue into the total, divide by elapsed time
to get the rate, and run the ETA estimate; otherwise skip.  Returns the
updated total and rate on success, `none` when the report is skipped, and
the Python exception when a division or logarithm raises. -/
def log_progress_step (st : LogTickState) (probability : ℚ) :
    Except PyArithError (Option (Int × ℚ)) :=
  if st.current_time - st.last_log_time > 5 then
    let elapsed_time := st.current_time - st.start_time
    let total := st.total_guesses + st.pending_stats.foldl (fun a b => a + b) 0
    if elapsed_time = 0 then .error .zeroDivision
    else
      let guesses_per_second := (total : ℚ) / elapsed_time
      match estimate_eta_50_percent probability guesses_per_second with
      | .error e => .error e
      | .ok _ => .ok (some (total, guesses_per_second))
  else .ok none

/-- Outcome of one iteration of a worker loop: the carried-over local
guess counter, the stats messages flushed to the stats queue, and whether
the worker process is still alive afterwards (`false` means an uncaught
exception escaped the loop body and killed the process). -/
structure WorkerIterResult where
  local_guesses : Nat
  stats_msgs : List Nat
  alive : Bool
deriving DecidableEq

namespace GenerateVanityEoa

/-- One iteration of `worker` from `generate_vanity_eoa.py`.  The body is
wrapped in `try/except Exception`: if mnemonic generation or derivation
fails, the error is printed and the loop continues with the local counter
intact; otherwise every derived address is counted and checked, the batch
count is flushed, and the counter resets. -/
def worker_iteration (derived : Except String (List (List Nat)))
    (local_guesses : Nat) : WorkerIterResult :=
  match derived with
  | .error _ => { local_guesses := local_guesses, stats_msgs := [], alive := true }
  | .ok batch =>
      { local_guesses := 0
        stats_msgs := [local_guesses + batch.length]
        alive := true }

/-- The stats messages a worker flushes over a sequence of completed
batches, following the counter discipline of `worker`: the counter grows
by one per derived address, is flushed at each batch end, then reset. -/
def worker_flush_messages {α : Type} (local_guesses : Nat) :
    List (List α) → List Nat
  | [] => []
  | batch :: rest => (local_guesses + batch.length) :: worker_flush_messages 0 rest

/-- The aggregator's drain loop (`while not stats_queue.empty(): ...`):
each message is added into `total_guesses`, an `mp.Value('i', 0)` — a
ctypes 32-bit signed integer — so every `total_guesses.value += m` stores
the wrapped value of the sum. -/
def aggregator_drain (total : Int) (msgs : List Nat) : Int :=
  msgs.foldl (fun t m => wrapInt32 (t + (m : Int))) total

/-- The loop condition of `worker` in `generate_vanity_eoa.py` is the
literal `while True`: it does not consult the shutdown signal (which is
not even passed to the worker processes).  The parameter records the
state of the signal the condition is allowed to observe. -/
def worker_loop_condition (_should_exit_set : Bool) : Bool := true

/-- The ordered actions of the shutdown path (the `finally` block of
`main` in `generate_vanity_eoa.py`): set the signal, forcibly terminate
each worker process, join the logging process, drain leftover stats. -/
inductive ShutdownAction
  | set_signal
  | terminate_worker (i : Nat)
  | join_worker (i : Nat)
  | join_log
  | drain_stats
deriving DecidableEq

/-- The shutdown sequence executed by `main` for `num_processes` workers. -/
def main_shutdown_sequence (num_processes : Nat) : List ShutdownAction :=
  ShutdownAction.set_signal ::
    (((List.range num_processes).map ShutdownAction.terminate_worker) ++
      [ShutdownAction.join_log, ShutdownAction.drain_stats])

end GenerateVanityEoa

namespace GenerateVanityContractDeployer

/-- One iteration of `worker` from `generate_vanity_contract_deployer.py`.
The body has no exception handler: if key generation or EOA derivation
fails, the exception escapes the loop and the worker process exits;
otherwise each nonce in `range max_nonce` is counted and checked and the
batch count is flushed. -/
def worker_iteration (derived : Except String (List Nat))
    (_pre _suf : List Nat) (max_nonce : Nat) (_match_case : Bool)
    (local_guesses : Nat) : WorkerIterResult :=
  match derived with
  | .error _ => { local_guesses := local_guesses, stats_msgs := [], alive := false }
  | .ok _eoa =>
      { local_guesses := 0
        stats_msgs := [local_guesses + max_nonce]
        alive := true }

end GenerateVanityContractDeployer

/-- The claim side of C1: the EIP-55 checksum-cased rendering of a bare
40-digit address string, i.e. the checksummed digits without the
`0x` prefix. -/
def checksum_cased_rendering (a : List Nat) : List Nat :=
  (to_checksum_address a).drop 2

/-- The claim side of C3: the last 20 bytes of
Keccak-256(RLP-encode([address_bytes, nonce])), the nonce RLP-encoded as a
minimal big-endian integer (empty byte string for nonce 0). -/
def create_address_spec (addressBytes : List Nat) (nonce : Nat) : List Nat :=
  (keccak256 (rlp_encode_list
    (rlp_encode_bytes addressBytes ++ rlp_encode_bytes (beBytes nonce)))).drop 12

/-- A concrete instantiation of the abstract derivation primitives, used
only to witness the universally quantified derivation theorems. -/
def natPrims : Bip44Prims Nat Nat Nat Nat Nat where
  seedGenerate := fun m => m + 1
  fromSeed := fun s => s * 2
  purposeStep := fun c => c + 3
  coinStep := fun c => c + 5
  accountStep := fun c a => c * 7 + a
  changeStep := fun c ch => c * 11 + ch
  addressIndexStep := fun c i => c * 13 + i
  privateKeyHex := fun c => c + 17
  fromKeyAddress := fun k => k * 19

namespace GenerateVanityEoa

/-- Recognizer for worker-join actions in the shutdown sequence. -/
def isJoinWorker : ShutdownAction → Bool
  | .join_worker _ => true
  | _ => false

/-- Recognizer for forced worker termination in the shutdown sequence. -/
def isTerminateWorker : ShutdownAction → Bool
  | .terminate_worker _ => true
  | _ => false

/-- Recognizer for the logging-process join in the shutdown sequence. -/
def isJoinLog : ShutdownAction → Bool
  | .join_log => true
  | _ => false

end GenerateVanityEoa

section HelperLemmas

theorem lowerB_upperB (n : Nat) : lowerB (upperB n) = lowerB n := by
  unfold lowerB upperB
  split_ifs <;> omega

theorem lowerB_lowerB (n : Nat) : lowerB (lowerB n) = lowerB n := by
  unfold lowerB
  split_ifs <;> omega

theorem map_lowerB_upperB (l : List Nat) : l.map (lowerB ∘ upperB) = l.map lowerB :=
  List.map_congr_left fun a _ => lowerB_upperB a

theorem map_lowerB_lowerB (l : List Nat) : l.map (lowerB ∘ lowerB) = l.map lowerB :=
  List.map_congr_left fun a _ => lowerB_lowerB a

theorem map_lowerB_upperB_fn (l : List Nat) :
    l.map (fun n => lowerB (upperB n)) = l.map lowerB :=
  List.map_congr_left fun a _ => lowerB_upperB a

theorem map_lowerB_lowerB_fn (l : List Nat) :
    l.map (fun n => lowerB (lowerB n)) = l.map lowerB :=
  List.map_congr_left fun a _ => lowerB_lowerB a

theorem hexVal_upperB (c : Nat) : hexVal (upperB c) = hexVal c := by
  unfold hexVal upperB
  split_ifs <;> omega

theorem hexPairs_eq_pairUp (l : List Nat) : hexPairs l = pairUp (l.map hexVal) := by
  induction l using hexPairs.induct with
  | case1 a b rest ih => simp [hexPairs, pairUp, ih]
  | case2 t h =>
      match t, h with
      | [], _ => simp [hexPairs, pairUp]
      | [a], _ => simp [hexPairs, pairUp]
      | a :: b :: r, h => exact (h a b r rfl).elim

theorem map_hexVal_checksum (l nib : List Nat) (h : l.length ≤ nib.length) :
    ((l.zip nib).map fun p => if 7 < p.2 then upperB p.1 else p.1).map hexVal =
      l.map hexVal := by
  induction l generalizing nib with
  | nil => simp
  | cons a t ih =>
      cases nib with
      | nil => simp at h
      | cons b nb =>
          simp only [List.zip_cons_cons, List.map_cons, List.length_cons] at h ⊢
          refine congrArg₂ _ ?_ (ih nb (by omega))
          split <;> simp [hexVal_upperB]

theorem keccak256_length (m : List Nat) : (keccak256 m).length = 32 := by
  simp [keccak256, bytesOfLane, List.length_flatten, List.map_map, Function.comp_def]

theorem hashNibbles_length (bs : List Nat) : (hashNibbles bs).length = 2 * bs.length := by
  induction bs with
  | nil => rfl
  | cons b t ih =>
      simp only [hashNibbles, List.map_cons, List.flatten_cons, List.length_append,
        List.length_cons, List.length_nil] at ih ⊢
      omega

theorem beBytesAux_fuel_irrel (fuel1 : Nat) :
    ∀ (fuel2 n : Nat), n ≤ fuel1 → n ≤ fuel2 →
      beBytesAux fuel1 n = beBytesAux fuel2 n := by
  induction fuel1 with
  | zero =>
      intro fuel2 n h1 _
      interval_cases n
      cases fuel2 <;> rfl
  | succ f1 ih =>
      intro fuel2 n h1 h2
      match n, fuel2 with
      | 0, 0 => rfl
      | 0, f2 + 1 => rfl
      | n + 1, f2 + 1 =>
          simp only [beBytesAux]
          have hq : (n + 1) / 256 < n + 1 := Nat.div_lt_self (Nat.succ_pos n) (by omega)
          rw [ih f2 ((n + 1) / 256) (by omega) (by omega)]

theorem beBytes_zero : beBytes 0 = [] := rfl

theorem beBytes_succ (n : Nat) :
    beBytes (n + 1) = beBytes ((n + 1) / 256) ++ [(n + 1) % 256] := by
  show beBytesAux n ((n + 1) / 256) ++ [(n + 1) % 256] = _
  have hq : (n + 1) / 256 < n + 1 := Nat.div_lt_self (Nat.succ_pos n) (by omega)
  rw [beBytesAux_fuel_irrel n ((n + 1) / 256) ((n + 1) / 256) (by omega) (by omega)]
  rfl

theorem beBytes_head_pos (n : Nat) : 0 < (beBytes n).head?.getD 1 := by
  induction n using Nat.strong_induction_on with
  | _ n ih =>
      match n with
      | 0 => simp [beBytes_zero]
      | n + 1 =>
          rw [beBytes_succ]
          have hq : (n + 1) / 256 < n + 1 := Nat.div_lt_self (Nat.succ_pos n) (by omega)
          rcases h : beBytes ((n + 1) / 256) with _ | ⟨a, t⟩
          · have h0 : (n + 1) / 256 = 0 := by
              by_contra hne
              have := ih ((n + 1) / 256) hq
              rcases hq2 : (n + 1) / 256 with _ | q
              · exact hne hq2
              · rw [hq2, beBytes_succ] at h
                simp at h
            simp only [List.nil_append, List.head?_cons, Option.getD_some]
            omega
          · have := ih ((n + 1) / 256) hq
            rw [h] at this
            simpa using this

theorem fromBE_append_byte (l : List Nat) (b : Nat) :
    fromBE (l ++ [b]) = fromBE l * 256 + b := by
  simp [fromBE, List.foldl_append]

theorem fromBE_beBytes (n : Nat) : fromBE (beBytes n) = n := by
  induction n using Nat.strong_induction_on with
  | _ n ih =>
      match n with
      | 0 => simp [beBytes_zero, fromBE]
      | n + 1 =>
          have hq : (n + 1) / 256 < n + 1 := Nat.div_lt_self (Nat.succ_pos n) (by omega)
          rw [beBytes_succ, fromBE_append_byte, ih ((n + 1) / 256) hq]
          omega

theorem prod_specCharProbability (cs : List Nat) :
    (cs.map specCharProbability).prod =
      ((1 : ℚ) / 36) ^ (cs.countP pyIsLower) * ((1 : ℚ) / 36) ^ (cs.countP pyIsUpper) *
        ((1 : ℚ) / 16) ^ (cs.countP pyIsDigit) := by
  induction cs with
  | nil => simp
  | cons c t ih =>
      simp only [List.map_cons, List.prod_cons, List.countP_cons, ih, specCharProbability]
      rcases hl : pyIsLower c with _ | _
      · rcases hu : pyIsUpper c with _ | _
        · rcases hd : pyIsDigit c with _ | _
          · simp only [hl, hu, hd, Bool.false_eq_true, if_false]
            ring
          · simp only [hl, hu, hd, Bool.false_eq_true, if_false, if_true, pow_succ]
            ring
        · have hd : pyIsDigit c = false := by
            have hu' : 65 ≤ c ∧ c ≤ 90 := by simpa [pyIsUpper] using hu
            simp [pyIsDigit]
            omega
          simp only [hl, hu, hd, Bool.false_eq_true, if_false, if_true, pow_succ]
          ring
      · have hl' : 97 ≤ c ∧ c ≤ 122 := by simpa [pyIsLower] using hl
        have hu : pyIsUpper c = false := by simp [pyIsUpper]; omega
        have hd : pyIsDigit c = false := by simp [pyIsDigit]; omega
        simp only [hl, hu, hd, Bool.false_eq_true, if_false, if_true, pow_succ]
        ring

theorem foldl_add_eq_sum {β : Type} (g : β → ℚ) (l : List β) (init : ℚ) :
    l.foldl (fun a p => a + g p) init = init + (l.map g).sum := by
  induction l generalizing init with
  | nil => simp
  | cons b t ih =>
      simp only [List.foldl_cons, List.map_cons, List.sum_cons, ih]
      ring

theorem single_pattern_probability_eq_spec (p : VanityPattern) :
    GenerateVanityContractDeployer.calculate_probability p.1 p.2.1 p.2.2 =
      specPatternProbability p := by
  rcases p with ⟨pre, suf, mc⟩
  cases mc
  · simp [GenerateVanityContractDeployer.calculate_probability, specPatternProbability,
      prod_specCharProbability]
  · simp [GenerateVanityContractDeployer.calculate_probability, specPatternProbability,
      prod_specCharProbability, pow_add]
    ring

theorem calculate_probability_eq_spec (patterns : List VanityPattern) :
    GenerateVanityEoa.calculate_probability patterns =
      (patterns.map specPatternProbability).sum := by
  show patterns.foldl
    (fun a p => a + GenerateVanityContractDeployer.calculate_probability p.1 p.2.1 p.2.2) 0 =
    (patterns.map specPatternProbability).sum
  rw [foldl_add_eq_sum, zero_add]
  exact congrArg _ (List.map_congr_left fun p _ => single_pattern_probability_eq_spec p)

theorem worker_flush_messages_sum {α : Type} (batches : List (List α)) :
    (GenerateVanityEoa.worker_flush_messages 0 batches).sum =
      (batches.map List.length).sum := by
  induction batches with
  | nil => simp [GenerateVanityEoa.worker_flush_messages]
  | cons b t ih =>
      simp only [GenerateVanityEoa.worker_flush_messages, List.sum_cons, List.map_cons, ih]
      omega

theorem wrapInt32_add_left (a b : Int) :
    wrapInt32 (wrapInt32 a + b) = wrapInt32 (a + b) := by
  unfold wrapInt32
  omega

theorem wrapInt32_eq_self (n : Int) (h0 : 0 ≤ n) (h1 : n < 2147483648) :
    wrapInt32 n = n := by
  unfold wrapInt32
  omega

theorem wrapInt32_zero : wrapInt32 0 = 0 := by
  unfold wrapInt32
  decide

theorem aggregator_drain_wrap (msgs : List Nat) (total : Int) :
    GenerateVanityEoa.aggregator_drain (wrapInt32 total) msgs =
      wrapInt32 (total + (msgs.sum : Int)) := by
  induction msgs generalizing total with
  | nil => simp [GenerateVanityEoa.aggregator_drain]
  | cons m t ih =>
      have step : GenerateVanityEoa.aggregator_drain (wrapInt32 total) (m :: t) =
          GenerateVanityEoa.aggregator_drain (wrapInt32 (wrapInt32 total + (m : Int))) t := rfl
      rw [step, wrapInt32_add_left, ih (total + (m : Int))]
      congr 1
      push_cast [List.sum_cons]
      ring

theorem aggregator_drain_from_zero (msgs : List Nat) :
    GenerateVanityEoa.aggregator_drain 0 msgs = wrapInt32 ((msgs.sum : Int)) := by
  have h0 : (0 : Int) = wrapInt32 0 := wrapInt32_zero.symm
  rw [h0, aggregator_drain_wrap, Int.zero_add]

end HelperLemmas

set_option maxRecDepth 100000 in
/-- Validation of the Keccak embedding against the standard Keccak-256
test vector for the empty message. -/
theorem keccak256_empty_vector :
    bytesToHex (keccak256 []) =
      asciiBytes "c5d2460186f7233c927e7db2dcc703c0e500b653ca82273b7bfad8045d85a470" := by
  decide

/-- Claim C4: for every address string, prefix and suffix, with
`caseSensitive=false`, `check_vanity_pattern` (in both the EOA and the
contract-deployer variant) is case-fold-symmetric: its result is unchanged
under uppercasing or lowercasing the input address, and likewise under
re-casing the pattern, because both pattern and address are lower-cased
before comparison. -/
theorem c4_check_vanity_pattern_case_fold_symmetric (address pre suf : List Nat) :
    (GenerateVanityEoa.check_vanity_pattern (address.map upperB) pre suf false =
        GenerateVanityEoa.check_vanity_pattern address pre suf false) ∧
    (GenerateVanityEoa.check_vanity_pattern (address.map lowerB) pre suf false =
        GenerateVanityEoa.check_vanity_pattern address pre suf false) ∧
    (GenerateVanityEoa.check_vanity_pattern address (pre.map upperB) (suf.map upperB) false =
        GenerateVanityEoa.check_vanity_pattern address pre suf false) ∧
    (GenerateVanityEoa.check_vanity_pattern address (pre.map lowerB) (suf.map lowerB) false =
        GenerateVanityEoa.check_vanity_pattern address pre suf false) ∧
    (GenerateVanityContractDeployer.check_vanity_pattern (address.map upperB) pre suf false =
        GenerateVanityContractDeployer.check_vanity_pattern address pre suf false) ∧
    (GenerateVanityContractDeployer.check_vanity_pattern (address.map lowerB) pre suf false =
        GenerateVanityContractDeployer.check_vanity_pattern address pre suf false) ∧
    (GenerateVanityContractDeployer.check_vanity_pattern address (pre.map upperB) (suf.map upperB)
        false = GenerateVanityContractDeployer.check_vanity_pattern address pre suf false) ∧
    (GenerateVanityContractDeployer.check_vanity_pattern address (pre.map lowerB) (suf.map lowerB)
        false = GenerateVanityContractDeployer.check_vanity_pattern address pre suf false) := by
  refine ⟨?_, ?_, ?_, ?_, ?_, ?_, ?_, ?_⟩ <;>
    simp [GenerateVanityEoa.check_vanity_pattern,
      GenerateVanityContractDeployer.check_vanity_pattern,
      map_lowerB_upperB, map_lowerB_lowerB, map_lowerB_upperB_fn, map_lowerB_lowerB_fn]

/-- Counterexample to claim C7: in the contract-deployer variant a
derivation failure is fatal, not caught — the worker iteration ends with
the process no longer alive. -/
theorem c7_counterexample_deployer_worker_dies :
    (GenerateVanityContractDeployer.worker_iteration (Except.error "DerivationError")
      (asciiBytes "B00B5") [] 5 true 0).alive = false := rfl

/-- Claim C7 as amended: the mnemonic-EOA worker wraps its whole loop body
in `try/except Exception`, so any derivation failure is caught, the local
guess counter is preserved and the worker keeps running; the
contract-deployer worker has no handler, so a derivation failure
terminates it, while a successful batch keeps it alive. -/
theorem c7_worker_error_handling :
    (∀ (derived : Except String (List (List Nat))) (l : Nat),
      (GenerateVanityEoa.worker_iteration derived l).alive = true) ∧
    (∀ (e : String) (l : Nat),
      GenerateVanityEoa.worker_iteration (Except.error e) l =
        { local_guesses := l, stats_msgs := [], alive := true }) ∧
    (∀ (e : String) (pre suf : List Nat) (m : Nat) (mc : Bool) (l : Nat),
      (GenerateVanityContractDeployer.worker_iteration (Except.error e) pre suf m mc l).alive =
        false) ∧
    (∀ (eoa : List Nat) (pre suf : List Nat) (m : Nat) (mc : Bool) (l : Nat),
      (GenerateVanityContractDeployer.worker_iteration (Except.ok eoa) pre suf m mc l).alive =
        true) := by
  refine ⟨fun derived l => ?_, fun e l => rfl, fun e pre suf m mc l => rfl,
    fun eoa pre suf m mc l => rfl⟩
  cases derived <;> rfl

/-- Counterexample to claim C8: the worker loop condition is the literal
`True` even when the cancellation signal is set (the signal is never
consulted, so a worker does not stop after its in-flight batch), and the
shutdown path of `main` contains no join of any worker process (with one
worker, no `join_worker` action occurs), so control can return before the
workers have terminated. -/
theorem c8_counterexample_no_drain_no_join :
    GenerateVanityEoa.worker_loop_condition true = true ∧
    (GenerateVanityEoa.main_shutdown_sequence 1).countP
      GenerateVanityEoa.isJoinWorker = 0 := by
  constructor <;> rfl

/-- Claim C8 as amended: setting the cancellation signal does not stop the
workers — their loop condition is unconditionally true — and the shutdown
path instead forcibly terminates each worker without joining it, joins
only the logging process, and ends by draining the leftover stats
messages. -/
theorem c8_shutdown_terminates_without_join :
    (∀ b : Bool, GenerateVanityEoa.worker_loop_condition b = true) ∧
    (∀ n : Nat, (GenerateVanityEoa.main_shutdown_sequence n).countP
      GenerateVanityEoa.isJoinWorker = 0) ∧
    (∀ n : Nat, (GenerateVanityEoa.main_shutdown_sequence n).countP
      GenerateVanityEoa.isTerminateWorker = n) ∧
    (∀ n : Nat, (GenerateVanityEoa.main_shutdown_sequence n).countP
      GenerateVanityEoa.isJoinLog = 1) ∧
    (∀ n : Nat, GenerateVanityEoa.ShutdownAction.join_log ∈
      GenerateVanityEoa.main_shutdown_sequence n) ∧
    (∀ n : Nat, GenerateVanityEoa.ShutdownAction.drain_stats ∈
      GenerateVanityEoa.main_shutdown_sequence n) := by
  refine ⟨fun b => rfl, fun n => ?_, fun n => ?_, fun n => ?_, fun n => ?_, fun n => ?_⟩ <;>
    simp [GenerateVanityEoa.main_shutdown_sequence, List.countP_cons, List.countP_append,
      List.countP_map, Function.comp_def, GenerateVanityEoa.isJoinWorker,
      GenerateVanityEoa.isTerminateWorker, GenerateVanityEoa.isJoinLog, List.countP_eq_length]

/-- Counterexample to claim C9 as stated: `total_guesses` is an
`mp.Value('i', 0)` — a ctypes 32-bit signed integer whose assignment does
no overflow checking — so on a run whose completed batches contain `2^31`
checks (one worker, one completed batch of `2^31` addresses, its single
flush message delivered unchanged) the drained total is `-2^31`, strictly
below the true check count `2^31`: the claimed equality fails. -/
theorem c9_counterexample_total_wraps :
    GenerateVanityEoa.worker_flush_messages 0 [List.replicate (2 ^ 31) (0 : Nat)] =
      [2 ^ 31] ∧
    GenerateVanityEoa.aggregator_drain 0 [2 ^ 31] = -(2 ^ 31) ∧
    (([[List.replicate (2 ^ 31) (0 : Nat)]] : List (List (List Nat))).map
      fun batches => (batches.map List.length).sum).sum = 2 ^ 31 ∧
    GenerateVanityEoa.aggregator_drain 0 [2 ^ 31] <
      (((([[List.replicate (2 ^ 31) (0 : Nat)]] : List (List (List Nat))).map
        fun batches => (batches.map List.length).sum).sum : Nat) : Int) := by
  have h3 : (([[List.replicate (2 ^ 31) (0 : Nat)]] : List (List (List Nat))).map
      fun batches => (batches.map List.length).sum).sum = 2 ^ 31 := by
    simp only [List.map_cons, List.map_nil, List.sum_cons, List.sum_nil,
      List.length_replicate, Nat.add_zero]
  refine ⟨?_, by decide, h3, ?_⟩
  · simp only [GenerateVanityEoa.worker_flush_messages, List.length_replicate, Nat.zero_add]
  · rw [h3]
    decide

/-- Claim C9 as amended: after a full drain, the aggregator's total equals
the sum over all workers of the derivation-and-match checks they performed
in completed batches, reduced by the silent 32-bit signed wrap of the
ctypes counter; whenever the total check count stays below `2^31` the
equality is exact.  The stats channel may deliver the per-batch flush
messages in any interleaving (any permutation of their concatenation),
with no loss and no duplication. -/
theorem c9_total_guesses_conservation {α : Type} (workers : List (List (List α)))
    (delivered : List Nat)
    (h : delivered.Perm ((workers.map (GenerateVanityEoa.worker_flush_messages 0)).flatten)) :
    GenerateVanityEoa.aggregator_drain 0 delivered =
      wrapInt32 (((workers.map fun batches => (batches.map List.length).sum).sum : Nat) : Int) ∧
    ((workers.map fun batches => (batches.map List.length).sum).sum < 2 ^ 31 →
      GenerateVanityEoa.aggregator_drain 0 delivered =
        (((workers.map fun batches => (batches.map List.length).sum).sum : Nat) : Int)) := by
  have hsum : delivered.sum =
      (workers.map fun batches => (batches.map List.length).sum).sum := by
    rw [h.sum_eq, List.sum_flatten, List.map_map]
    congr 1
    refine List.map_congr_left fun batches _ => ?_
    simp [Function.comp_def, worker_flush_messages_sum]
  constructor
  · rw [aggregator_drain_from_zero, hsum]
  · intro hlt
    rw [aggregator_drain_from_zero, hsum, wrapInt32_eq_self]
    · omega
    · omega

/-- Witness for C9 at a concrete two-worker run: worker one completes
batches of 2 and 1 checks, worker two a batch of 1; the stats channel
delivers the flush messages out of order, the check count 4 is below the
wrap threshold, and the drained total is exactly 4. -/
theorem c9_witness :
    ([1, 2, 1] : List Nat).Perm
      ((([[[10, 20], [30]], [[40]]] : List (List (List Nat))).map
        (GenerateVanityEoa.worker_flush_messages 0)).flatten) ∧
    GenerateVanityEoa.aggregator_drain 0 [1, 2, 1] =
      wrapInt32 ((((([[[10, 20], [30]], [[40]]] : List (List (List Nat))).map
        fun batches => (batches.map List.length).sum).sum : Nat) : Int)) ∧
    (([[[10, 20], [30]], [[40]]] : List (List (List Nat))).map
      fun batches => (batches.map List.length).sum).sum < 2 ^ 31 ∧
    GenerateVanityEoa.aggregator_drain 0 [1, 2, 1] =
      ((((([[[10, 20], [30]], [[40]]] : List (List (List Nat))).map
        fun batches => (batches.map List.length).sum).sum : Nat) : Int)) := by
  refine ⟨by decide, (c9_total_guesses_conservation _ _ (by decide)).1, by decide,
    (c9_total_guesses_conservation _ _ (by decide)).2 (by decide)⟩


theorem checksum_preserves_bytes (eoa : List Nat)
    (h : (strip0x eoa).length = 40) :
    hexPairs (strip0x (to_checksum_address eoa)) =
      hexPairs ((strip0x eoa).map lowerB) := by
  have hlen : ((strip0x eoa).map lowerB).length ≤
      (hashNibbles (keccak256 ((strip0x eoa).map lowerB))).length := by
    rw [List.length_map, hashNibbles_length, keccak256_length, h]
    omega
  have h1 : strip0x (to_checksum_address eoa) =
      (((strip0x eoa).map lowerB).zip
        (hashNibbles (keccak256 ((strip0x eoa).map lowerB)))).map
          (fun p => if 7 < p.2 then upperB p.1 else p.1) := rfl
  rw [h1, hexPairs_eq_pairUp, hexPairs_eq_pairUp, map_hexVal_checksum _ _ hlen]

theorem create_address_eq_spec (eoa : List Nat) (nonce : Nat)
    (h : (strip0x eoa).length = 40) :
    CalculateContractAddress.calculate_contract_address eoa nonce =
      to_checksum_address ([48, 120] ++ bytesToHex (create_address_spec
        (hexPairs ((strip0x eoa).map lowerB)) nonce)) := by
  simp only [CalculateContractAddress.calculate_contract_address, create_address_spec,
    rlp_encode_nat]
  rw [checksum_preserves_bytes eoa h]

/-- Claim C2: `calculate_probability` reproduces the spec's probability
model exactly — per pattern, the product over all prefix and suffix
characters of 1/36 for a lowercase letter, 1/36 for an uppercase letter
and 1/16 for a digit when case-sensitive, `(1/16)^length` otherwise, and
the sum of the per-pattern probabilities over a pattern list; in
particular `("a","",true)` gives 1/36, `("00000","",true)` gives
`(1/16)^5`, and `("a","",false)` gives 1/16. -/
theorem c2_calculate_probability_model :
    (∀ patterns : List VanityPattern,
      GenerateVanityEoa.calculate_probability patterns =
        (patterns.map specPatternProbability).sum) ∧
    GenerateVanityContractDeployer.calculate_probability (asciiBytes "a") [] true =
      (1 : ℚ) / 36 ∧
    GenerateVanityContractDeployer.calculate_probability (asciiBytes "00000") [] true =
      ((1 : ℚ) / 16) ^ 5 ∧
    GenerateVanityContractDeployer.calculate_probability (asciiBytes "a") [] false =
      (1 : ℚ) / 16 ∧
    (∀ (pre suf : List Nat) (mc : Bool),
      GenerateVanityEoa.calculate_probability [(pre, suf, mc)] =
        GenerateVanityContractDeployer.calculate_probability pre suf mc) := by
  refine ⟨calculate_probability_eq_spec, ?_, ?_, ?_, fun pre suf mc => ?_⟩
  · have h1 : (asciiBytes "a").countP pyIsLower = 1 := by decide
    have h2 : (asciiBytes "a").countP pyIsUpper = 0 := by decide
    have h3 : (asciiBytes "a").countP pyIsDigit = 0 := by decide
    simp [GenerateVanityContractDeployer.calculate_probability, h1, h2, h3]
  · have h1 : (asciiBytes "00000").countP pyIsLower = 0 := by decide
    have h2 : (asciiBytes "00000").countP pyIsUpper = 0 := by decide
    have h3 : (asciiBytes "00000").countP pyIsDigit = 5 := by decide
    simp [GenerateVanityContractDeployer.calculate_probability, h1, h2, h3]
  · have h1 : (asciiBytes "a").length = 1 := by decide
    simp [GenerateVanityContractDeployer.calculate_probability, h1]
  · show (0 : ℚ) + GenerateVanityContractDeployer.calculate_probability pre suf mc =
      GenerateVanityContractDeployer.calculate_probability pre suf mc
    exact zero_add _

/-- Claim C5: deriving a batch of `N` addresses from a mnemonic yields at
each position `i < N` exactly the address that `generate_eoa_address`
derives for index `i` alone, for every instantiation of the external
BIP39/BIP44/secp256k1 primitives; and both derivations are deterministic
(re-derivation yields an identical result). -/
theorem c5_batch_matches_single_derivation {M S C K A : Type}
    (P : Bip44Prims M S C K A) (m : M) (N i : Nat) (h : i < N) :
    ((GenerateVanityEoa.generate_eth_addresses_from_mnemonic P m 0 chainExt N)[i]?.map
        GeneratedAddresses.address) =
      some (CalculateEOA.generate_eoa_address P m i) ∧
    GenerateVanityEoa.generate_eth_addresses_from_mnemonic P m 0 chainExt N =
      GenerateVanityEoa.generate_eth_addresses_from_mnemonic P m 0 chainExt N ∧
    CalculateEOA.generate_eoa_address P m i = CalculateEOA.generate_eoa_address P m i := by
  refine ⟨?_, rfl, rfl⟩
  simp [GenerateVanityEoa.generate_eth_addresses_from_mnemonic,
    CalculateEOA.generate_eoa_address, List.getElem?_map, List.getElem?_range, h]

/-- Witness for C5 at the concrete primitive instantiation `natPrims`,
mnemonic 5, batch size 1, index 0. -/
theorem c5_witness :
    0 < 1 ∧
    (((GenerateVanityEoa.generate_eth_addresses_from_mnemonic natPrims 5 0 chainExt 1)[0]?.map
        GeneratedAddresses.address) =
      some (CalculateEOA.generate_eoa_address natPrims 5 0) ∧
    GenerateVanityEoa.generate_eth_addresses_from_mnemonic natPrims 5 0 chainExt 1 =
      GenerateVanityEoa.generate_eth_addresses_from_mnemonic natPrims 5 0 chainExt 1 ∧
    CalculateEOA.generate_eoa_address natPrims 5 0 =
      CalculateEOA.generate_eoa_address natPrims 5 0) :=
  ⟨Nat.one_pos, c5_batch_matches_single_derivation natPrims 5 1 0 Nat.one_pos⟩

/-- Claim C10: `generate_eth_addresses_from_mnemonic` returns exactly `N`
entries; the entry at position `i` carries index `i` and an address equal
to the address derived from its own recorded private key, for every
instantiation of the external primitives. -/
theorem c10_generated_addresses_shape {M S C K A : Type}
    (P : Bip44Prims M S C K A) (m : M) (account change N : Nat) :
    (GenerateVanityEoa.generate_eth_addresses_from_mnemonic P m account change N).length = N ∧
    (∀ i : Nat, i < N →
      ((GenerateVanityEoa.generate_eth_addresses_from_mnemonic P m account change N)[i]?.map
          GeneratedAddresses.index) = some i ∧
      ((GenerateVanityEoa.generate_eth_addresses_from_mnemonic P m account change N)[i]?.map
          GeneratedAddresses.address) =
        ((GenerateVanityEoa.generate_eth_addresses_from_mnemonic P m account change N)[i]?.map
          fun e => P.fromKeyAddress e.pk)) := by
  constructor
  · simp [GenerateVanityEoa.generate_eth_addresses_from_mnemonic]
  · intro i h
    constructor <;>
      simp [GenerateVanityEoa.generate_eth_addresses_from_mnemonic,
        List.getElem?_map, List.getElem?_range, h]

/-- Witness for C10 at the concrete primitive instantiation `natPrims`,
mnemonic 5, account 0, change 0, batch size 1, index 0. -/
theorem c10_witness :
    (GenerateVanityEoa.generate_eth_addresses_from_mnemonic natPrims 5 0 0 1).length = 1 ∧
    (0 < 1 ∧
      ((GenerateVanityEoa.generate_eth_addresses_from_mnemonic natPrims 5 0 0 1)[0]?.map
          GeneratedAddresses.index) = some 0 ∧
      ((GenerateVanityEoa.generate_eth_addresses_from_mnemonic natPrims 5 0 0 1)[0]?.map
          GeneratedAddresses.address) =
        ((GenerateVanityEoa.generate_eth_addresses_from_mnemonic natPrims 5 0 0 1)[0]?.map
          fun e => natPrims.fromKeyAddress e.pk)) :=
  ⟨(c10_generated_addresses_shape natPrims 5 0 0 1).1,
    Nat.one_pos, (c10_generated_addresses_shape natPrims 5 0 0 1).2 0 Nat.one_pos⟩

/-- Claim C6 names a requirement the code violates: at the reachable
first-report state in which 6 seconds have elapsed but no stats message
has arrived yet (total guess count 0, hence a guesses-per-second rate of
0), `log_progress` neither skips nor completes — the division by the rate
inside `estimate_eta_50_percent` raises `ZeroDivisionError` (the pattern
list is the module's default configuration, whose probability lies
strictly between 0 and 1, so the logarithms are unproblematic). -/
theorem c6_log_progress_zero_rate_raises :
    log_progress_step
      { current_time := 6, last_log_time := 0, start_time := 0, total_guesses := 0,
        pending_stats := [] }
      (GenerateVanityEoa.calculate_probability
        [(asciiBytes "0000000", [], true), (asciiBytes "coffee", [], true)]) =
      Except.error PyArithError.zeroDivision := by
  have hp : GenerateVanityEoa.calculate_probability
      [(asciiBytes "0000000", [], true), (asciiBytes "coffee", [], true)] =
      ((1 : ℚ) / 16) ^ 7 + ((1 : ℚ) / 36) ^ 6 := by
    have ha1 : (asciiBytes "0000000").countP pyIsLower = 0 := by decide
    have ha2 : (asciiBytes "0000000").countP pyIsUpper = 0 := by decide
    have ha3 : (asciiBytes "0000000").countP pyIsDigit = 7 := by decide
    have hb1 : (asciiBytes "coffee").countP pyIsLower = 6 := by decide
    have hb2 : (asciiBytes "coffee").countP pyIsUpper = 0 := by decide
    have hb3 : (asciiBytes "coffee").countP pyIsDigit = 0 := by decide
    show (0 : ℚ) +
        GenerateVanityContractDeployer.calculate_probability (asciiBytes "0000000") [] true +
        GenerateVanityContractDeployer.calculate_probability (asciiBytes "coffee") [] true =
      ((1 : ℚ) / 16) ^ 7 + ((1 : ℚ) / 36) ^ 6
    simp [GenerateVanityContractDeployer.calculate_probability, ha1, ha2, ha3, hb1, hb2, hb3]
  rw [hp]
  have hcond : ((6 : ℚ) - 0 > 5) := by norm_num
  have hzero : ¬ ((6 : ℚ) - 0 = 0) := by norm_num
  have hrange : ¬ ((1 : ℚ) - (((1 : ℚ) / 16) ^ 7 + ((1 : ℚ) / 36) ^ 6) ≤ 0) := by norm_num
  have hpne : ¬ ((((1 : ℚ) / 16) ^ 7 + ((1 : ℚ) / 36) ^ 6) = 0) := by norm_num
  simp only [log_progress_step, estimate_eta_50_percent, hcond, if_true, List.foldl_nil,
    hzero, if_false, hrange, hpne, if_neg]
  norm_num

set_option maxRecDepth 100000 in
set_option maxHeartbeats 1000000 in
/-- Claim C1 names a requirement the code violates: with
`caseSensitive=true` the contract-deployer `check_vanity_pattern` compares
the pattern against the `0x`-prefixed output of `to_checksum_address`
instead of the checksum-cased 40-digit rendering of the address, so a
non-empty prefix not starting with `0` can never match.  The module's own
default prefix `B00B5` is rejected for every address, and for the concrete
address `d3cda913…` whose EIP-55 rendering starts with `d3C` the code
returns false even though the claim requires true. -/
theorem c1_case_sensitive_match_broken_by_0x :
    (∀ address : List Nat,
      GenerateVanityContractDeployer.check_vanity_pattern address
        (asciiBytes "B00B5") [] true = false) ∧
    GenerateVanityContractDeployer.check_vanity_pattern
      (asciiBytes "d3cda913deb6f67967b99d67acdfa1712c293601")
      (asciiBytes "d3C") [] true = false ∧
    (asciiBytes "d3C").isPrefixOf
      (checksum_cased_rendering
        (asciiBytes "d3cda913deb6f67967b99d67acdfa1712c293601")) = true ∧
    ([] : List Nat).isSuffixOf
      (checksum_cased_rendering
        (asciiBytes "d3cda913deb6f67967b99d67acdfa1712c293601")) = true := by
  refine ⟨fun address => rfl, rfl, by decide, by decide⟩

set_option maxRecDepth 100000 in
set_option maxHeartbeats 4000000 in
/-- Claim C3: `calculate_contract_address` returns the EIP-55 checksummed
rendering of the last 20 bytes of Keccak-256 of the RLP encoding of the
pair of the 20 address bytes and the nonce; the nonce is RLP-encoded as a
minimal big-endian integer (empty byte string, encoded `0x80`, for nonce
0; one byte up to 127; length-prefixed from 128).  At the reference
deployer address `0x6ac7ea33f8831ea9dcc53393aaa88b25a785dbf0` the outputs
for nonces 0, 1, 127 and 128 match the published CREATE vectors (0 and 1)
and the recomputed minimal-RLP edge cases (127 and 128); the
contract-deployer variant agrees on the raw bytes. -/
theorem c3_contract_address_create_derivation :
    (∀ (eoa : List Nat) (nonce : Nat), (strip0x eoa).length = 40 →
      CalculateContractAddress.calculate_contract_address eoa nonce =
        to_checksum_address ([48, 120] ++ bytesToHex (create_address_spec
          (hexPairs ((strip0x eoa).map lowerB)) nonce))) ∧
    beBytes 0 = [] ∧
    rlp_encode_nat 0 = [128] ∧
    rlp_encode_nat 127 = [127] ∧
    rlp_encode_nat 128 = [129, 128] ∧
    (∀ n : Nat, 0 < (beBytes n).head?.getD 1) ∧
    (∀ n : Nat, fromBE (beBytes n) = n) ∧
    ((CalculateContractAddress.calculate_contract_address
        (asciiBytes "0x6ac7ea33f8831ea9dcc53393aaa88b25a785dbf0") 0).map lowerB =
      asciiBytes "0xcd234a471b72ba2f1ccf0a70fcaba648a5eecd8d") ∧
    ((CalculateContractAddress.calculate_contract_address
        (asciiBytes "0x6ac7ea33f8831ea9dcc53393aaa88b25a785dbf0") 1).map lowerB =
      asciiBytes "0x343c43a37d37dff08ae8c4a11544c718abb4fcf8") ∧
    ((CalculateContractAddress.calculate_contract_address
        (asciiBytes "0x6ac7ea33f8831ea9dcc53393aaa88b25a785dbf0") 127).map lowerB =
      asciiBytes "0x06d9a77f5e4b311bae8d559db9cdb4df94104aa0") ∧
    ((CalculateContractAddress.calculate_contract_address
        (asciiBytes "0x6ac7ea33f8831ea9dcc53393aaa88b25a785dbf0") 128).map lowerB =
      asciiBytes "0x08e190dcb7b73f5fcdabb43e102215c83659a76d") ∧
    GenerateVanityContractDeployer.calculate_contract_address
      (asciiBytes "0x6ac7ea33f8831ea9dcc53393aaa88b25a785dbf0") 0 =
      asciiBytes "cd234a471b72ba2f1ccf0a70fcaba648a5eecd8d" := by
  have e1 : to_checksum_address (asciiBytes "0x6ac7ea33f8831ea9dcc53393aaa88b25a785dbf0") =
      asciiBytes "0x6AC7EA33F8831EA9dcC53393aAA88B25A785DBF0" := by decide
  have e2 : hexPairs (strip0x (asciiBytes "0x6AC7EA33F8831EA9dcC53393aAA88B25A785DBF0")) =
      [106, 199, 234, 51, 248, 131, 30, 169, 220, 197, 51, 147, 170, 168, 139, 37, 167, 133,
        219, 240] := by decide
  have e2l : hexPairs (strip0x (asciiBytes "0x6ac7ea33f8831ea9dcc53393aaa88b25a785dbf0")) =
      [106, 199, 234, 51, 248, 131, 30, 169, 220, 197, 51, 147, 170, 168, 139, 37, 167, 133,
        219, 240] := by decide
  have e3_0 : rlp_encode_list (rlp_encode_bytes
      [106, 199, 234, 51, 248, 131, 30, 169, 220, 197, 51, 147, 170, 168, 139, 37, 167, 133,
        219, 240] ++ rlp_encode_nat 0) =
      [214, 148, 106, 199, 234, 51, 248, 131, 30, 169, 220, 197, 51, 147, 170, 168, 139, 37,
        167, 133, 219, 240, 128] := by decide
  have e4_0 : keccak256
      [214, 148, 106, 199, 234, 51, 248, 131, 30, 169, 220, 197, 51, 147, 170, 168, 139, 37,
        167, 133, 219, 240, 128] =
      [139, 102, 33, 83, 74, 45, 166, 159, 47, 127, 247, 163, 205, 35, 74, 71, 27, 114, 186,
        47, 28, 207, 10, 112, 252, 171, 166, 72, 165, 238, 205, 141] := by decide
  have e5_0 : bytesToHex (([139, 102, 33, 83, 74, 45, 166, 159, 47, 127, 247, 163, 205, 35,
        74, 71, 27, 114, 186, 47, 28, 207, 10, 112, 252, 171, 166, 72, 165, 238, 205, 141] :
        List Nat).drop 12) =
      asciiBytes "cd234a471b72ba2f1ccf0a70fcaba648a5eecd8d" := by decide
  have e6_0 : to_checksum_address
      ([48, 120] ++ asciiBytes "cd234a471b72ba2f1ccf0a70fcaba648a5eecd8d") =
      asciiBytes "0xcd234A471b72ba2F1Ccf0A70FCABA648a5eeCD8d" := by decide
  have e3_1 : rlp_encode_list (rlp_encode_bytes
      [106, 199, 234, 51, 248, 131, 30, 169, 220, 197, 51, 147, 170, 168, 139, 37, 167, 133,
        219, 240] ++ rlp_encode_nat 1) =
      [214, 148, 106, 199, 234, 51, 248, 131, 30, 169, 220, 197, 51, 147, 170, 168, 139, 37,
        167, 133, 219, 240, 1] := by decide
  have e4_1 : keccak256
      [214, 148, 106, 199, 234, 51, 248, 131, 30, 169, 220, 197, 51, 147, 170, 168, 139, 37,
        167, 133, 219, 240, 1] =
      [199, 238, 28, 37, 27, 191, 80, 4, 225, 60, 0, 152, 52, 60, 67, 163, 125, 55, 223, 240,
        138, 232, 196, 161, 21, 68, 199, 24, 171, 180, 252, 248] := by decide
  have e5_1 : bytesToHex (([199, 238, 28, 37, 27, 191, 80, 4, 225, 60, 0, 152, 52, 60, 67,
        163, 125, 55, 223, 240, 138, 232, 196, 161, 21, 68, 199, 24, 171, 180, 252, 248] :
        List Nat).drop 12) =
      asciiBytes "343c43a37d37dff08ae8c4a11544c718abb4fcf8" := by decide
  have e6_1 : to_checksum_address
      ([48, 120] ++ asciiBytes "343c43a37d37dff08ae8c4a11544c718abb4fcf8") =
      asciiBytes "0x343c43A37D37dfF08AE8C4A11544c718AbB4fCF8" := by decide
  have e3_127 : rlp_encode_list (rlp_encode_bytes
      [106, 199, 234, 51, 248, 131, 30, 169, 220, 197, 51, 147, 170, 168, 139, 37, 167, 133,
        219, 240] ++ rlp_encode_nat 127) =
      [214, 148, 106, 199, 234, 51, 248, 131, 30, 169, 220, 197, 51, 147, 170, 168, 139, 37,
        167, 133, 219, 240, 127] := by decide
  have e4_127 : keccak256
      [214, 148, 106, 199, 234, 51, 248, 131, 30, 169, 220, 197, 51, 147, 170, 168, 139, 37,
        167, 133, 219, 240, 127] =
      [246, 80, 250, 214, 6, 85, 34, 220, 195, 228, 199, 174, 6, 217, 167, 127, 94, 75, 49,
        27, 174, 141, 85, 157, 185, 205, 180, 223, 148, 16, 74, 160] := by decide
  have e5_127 : bytesToHex (([246, 80, 250, 214, 6, 85, 34, 220, 195, 228, 199, 174, 6, 217,
        167, 127, 94, 75, 49, 27, 174, 141, 85, 157, 185, 205, 180, 223, 148, 16, 74, 160] :
        List Nat).drop 12) =
      asciiBytes "06d9a77f5e4b311bae8d559db9cdb4df94104aa0" := by decide
  have e6_127 : to_checksum_address
      ([48, 120] ++ asciiBytes "06d9a77f5e4b311bae8d559db9cdb4df94104aa0") =
      asciiBytes "0x06d9a77f5E4b311Bae8D559DB9CDB4dF94104aA0" := by decide
  have e3_128 : rlp_encode_list (rlp_encode_bytes
      [106, 199, 234, 51, 248, 131, 30, 169, 220, 197, 51, 147, 170, 168, 139, 37, 167, 133,
        219, 240] ++ rlp_encode_nat 128) =
      [215, 148, 106, 199, 234, 51, 248, 131, 30, 169, 220, 197, 51, 147, 170, 168, 139, 37,
        167, 133, 219, 240, 129, 128] := by decide
  have e4_128 : keccak256
      [215, 148, 106, 199, 234, 51, 248, 131, 30, 169, 220, 197, 51, 147, 170, 168, 139, 37,
        167, 133, 219, 240, 129, 128] =
      [171, 208, 150, 64, 136, 161, 232, 210, 64, 65, 124, 38, 8, 225, 144, 220, 183, 183,
        63, 95, 205, 171, 180, 62, 16, 34, 21, 200, 54, 89, 167, 109] := by decide
  have e5_128 : bytesToHex (([171, 208, 150, 64, 136, 161, 232, 210, 64, 65, 124, 38, 8, 225,
        144, 220, 183, 183, 63, 95, 205, 171, 180, 62, 16, 34, 21, 200, 54, 89, 167, 109] :
        List Nat).drop 12) =
      asciiBytes "08e190dcb7b73f5fcdabb43e102215c83659a76d" := by decide
  have e6_128 : to_checksum_address
      ([48, 120] ++ asciiBytes "08e190dcb7b73f5fcdabb43e102215c83659a76d") =
      asciiBytes "0x08e190dcB7b73F5fcDAbb43e102215c83659A76D" := by decide
  refine ⟨create_address_eq_spec, rfl, rfl, by decide, by decide, beBytes_head_pos,
    fromBE_beBytes, ?_, ?_, ?_, ?_, ?_⟩
  · simp only [CalculateContractAddress.calculate_contract_address]
    rw [e1, e2, e3_0, e4_0, e5_0, e6_0]
    decide
  · simp only [CalculateContractAddress.calculate_contract_address]
    rw [e1, e2, e3_1, e4_1, e5_1, e6_1]
    decide
  · simp only [CalculateContractAddress.calculate_contract_address]
    rw [e1, e2, e3_127, e4_127, e5_127, e6_127]
    decide
  · simp only [CalculateContractAddress.calculate_contract_address]
    rw [e1, e2, e3_128, e4_128, e5_128, e6_128]
    decide
  · simp only [GenerateVanityContractDeployer.calculate_contract_address]
    rw [e2l, e3_0, e4_0, e5_0]

/-- Witness for C3 at the reference deployer address and nonce 3,
discharging the 40-hex-digit validity hypothesis of the general CREATE
statement. -/
theorem c3_witness :
    (strip0x (asciiBytes "0x6ac7ea33f8831ea9dcc53393aaa88b25a785dbf0")).length = 40 ∧
    CalculateContractAddress.calculate_contract_address
        (asciiBytes "0x6ac7ea33f8831ea9dcc53393aaa88b25a785dbf0") 3 =
      to_checksum_address ([48, 120] ++ bytesToHex (create_address_spec
        (hexPairs ((strip0x (asciiBytes "0x6ac7ea33f8831ea9dcc53393aaa88b25a785dbf0")).map
          lowerB)) 3)) :=
  ⟨by decide,
    c3_contract_address_create_derivation.1
      (asciiBytes "0x6ac7ea33f8831ea9dcc53393aaa88b25a785dbf0") 3 (by decide)⟩
